import Mathlib

/-!
Shallow embedding of the voxtube server supervisor
(src-tauri/src/lib.rs and src-tauri/src/main.rs).

All durations are modelled in milliseconds as natural numbers.  The
environment (network responses, filesystem results, child process status
reports) is passed in explicitly, so each Rust function becomes a pure Lean
function of the code's inputs plus that environment.
-/

namespace Voxtube

/-- The fixed server port (`SERVER_PORT` in lib.rs). -/
def SERVER_PORT : Nat := 3847

/-- Outcome of the TCP connect attempt inside `check_port_available`:
the connection succeeded, was refused, or failed with some other error
(timeout, host unreachable, ...). -/
inductive ConnectOutcome where
  | connected
  | refused
  | otherError (msg : String)
deriving DecidableEq, Repr

/-- Observable result of the port probe: the returned boolean plus whether
the warning branch (`eprintln!`) ran. -/
structure PortCheckResult where
  available : Bool
  warned : Bool
deriving DecidableEq, Repr

/-- `check_port_available` from lib.rs.  A successful connection means the
port is occupied (`false`); `ConnectionRefused` means nothing is listening
(`true`); every other error is conservatively `false` with a logged
warning. -/
def check_port_available : ConnectOutcome → PortCheckResult
  | ConnectOutcome.connected => ⟨false, false⟩
  | ConnectOutcome.refused => ⟨true, false⟩
  | ConnectOutcome.otherError _ => ⟨false, true⟩

/-- Outcome of one HTTP request in the health poll loop of
`wait_for_server`: either a response with some status code, or a failure
(connection error or per-request timeout).  Both `Err(_)` and
`Ok(resp)` fall into the loop's wildcard arm unless the status is
success-class. -/
inductive ReqOutcome where
  | response (status : Nat)
  | failed
deriving DecidableEq, Repr

/-- One poll step of `wait_for_server`: how many milliseconds the request
took before returning, and its outcome.  The reqwest client is built with
a 500 ms per-request timeout, so durations of real runs are at most
`REQUEST_TIMEOUT`. -/
structure PollStep where
  duration : Nat
  outcome : ReqOutcome
deriving DecidableEq, Repr

/-- `StatusCode::is_success` in reqwest: the status is in 200..=299. -/
def is_success (s : Nat) : Bool := decide (200 ≤ s ∧ s < 300)

/-- The guard of the arm `Ok(resp) if resp.status().is_success()`. -/
def pollOk (p : PollStep) : Bool :=
  match p.outcome with
  | ReqOutcome.response s => is_success s
  | ReqOutcome.failed => false

/-- `poll_interval` in `wait_for_server` (200 ms). -/
def POLL_INTERVAL : Nat := 200

/-- The per-request timeout of the reqwest client (500 ms). -/
def REQUEST_TIMEOUT : Nat := 500

/-- Result of `wait_for_server`: the `Result<(), String>` value together
with the elapsed wall time (ms since `start`) at the moment of return. -/
structure WaitResult where
  result : Except String Unit
  elapsed : Nat
deriving Repr

/-- The timeout error message of `wait_for_server`; `timeout.as_secs()`
is integer division of the millisecond value by 1000. -/
def timeoutMsg (timeout : Nat) : String :=
  "Server did not become healthy within " ++ toString (timeout / 1000) ++ "s"

/-- The `loop` of `wait_for_server`: at each iteration, first compare
`start.elapsed() > timeout`; on excess return the timeout error; otherwise
issue request `n` (taking `(reqs n).duration` ms), return `Ok` on a
success-class response, else sleep one poll interval and continue. -/
def wait_loop (timeout : Nat) (reqs : Nat → PollStep) (n elapsed : Nat) : WaitResult :=
  if _h : timeout < elapsed then
    ⟨Except.error (timeoutMsg timeout), elapsed⟩
  else if pollOk (reqs n) then
    ⟨Except.ok (), elapsed + (reqs n).duration⟩
  else
    wait_loop timeout reqs (n + 1) (elapsed + (reqs n).duration + POLL_INTERVAL)
termination_by timeout + 1 - elapsed
decreasing_by simp [POLL_INTERVAL]; omega

/-- `wait_for_server(port, timeout)` from lib.rs, abstracted over the
sequence of poll request outcomes. -/
def wait_for_server (timeout : Nat) (reqs : Nat → PollStep) : WaitResult :=
  wait_loop timeout reqs 0 0

/-- Elapsed wall time at the start of poll iteration `n` when no earlier
request succeeded: each prior iteration contributes its request duration
plus one poll-interval sleep. -/
def elapsedAt (reqs : Nat → PollStep) : Nat → Nat
  | 0 => 0
  | n + 1 => elapsedAt reqs n + (reqs n).duration + POLL_INTERVAL

/-- Filesystem environment of `setup_logging`: results of
`fs::create_dir_all`, of opening the log file, and of `try_clone`. -/
structure LogEnv where
  create_dir : Except String Unit
  open_file : Except String Nat
  try_clone : Except String Nat

/-- `setup_logging` from lib.rs: create the logs directory, open the log
file in append mode, clone the handle; each failure is fatal with a
descriptive message. -/
def setup_logging (env : LogEnv) : Except String (Nat × Nat) :=
  match env.create_dir with
  | Except.error e => Except.error ("Failed to create logs directory: " ++ e)
  | Except.ok _ =>
    match env.open_file with
    | Except.error e => Except.error ("Failed to open log file: " ++ e)
    | Except.ok f =>
      match env.try_clone with
      | Except.error e => Except.error ("Failed to clone log file handle: " ++ e)
      | Except.ok g => Except.ok (f, g)

/-- A spawned child process handle (`std::process::Child`), reduced to its
pid for the purposes of the start path. -/
structure Child where
  pid : Nat
deriving DecidableEq, Repr

/-- Observable side effects of `start_server`, in program order. -/
inductive StartEvent where
  | logOpen
  | portCheck
  | spawnChild
  | healthWait
  | killChild
  | waitChild
deriving DecidableEq, Repr

/-- Environment of one `start_server` run: the target architecture, the
results of the path resolutions, the filesystem responses for logging,
the network response to the port probe, the OS response to `spawn`, and
the sequence of health poll outcomes. -/
structure AppEnv where
  arch : String
  resource_dir : Except String String
  app_data_dir : Except String String
  log : LogEnv
  probe : ConnectOutcome
  spawn : Except String Child
  reqs : Nat → PollStep

/-- The architecture match at the top of `start_server`. -/
def arch_suffix (arch : String) : Except String String :=
  if arch = "aarch64" then Except.ok "aarch64"
  else if arch = "x86_64" then Except.ok "x86_64"
  else Except.error ("Unsupported architecture: " ++ arch)

/-- The port-conflict error message of `start_server`. -/
def portInUseMsg : String :=
  "Port " ++ toString SERVER_PORT ++
    " is already in use. Is another instance of VoxTube running?"

/-- `start_server` from lib.rs: resolve the architecture suffix, the
resource directory and the app data directory; call `setup_logging`; call
`check_port_available` (aborting with the port-conflict message if
occupied); spawn the child; call `wait_for_server` with a 4 s deadline;
on health failure kill then wait the child and return the health error;
otherwise return the child.  The second component records the observable
events in program order. -/
def start_server (env : AppEnv) : Except String Child × List StartEvent :=
  match arch_suffix env.arch with
  | Except.error e => (Except.error e, [])
  | Except.ok sfx =>
    match env.resource_dir with
    | Except.error e => (Except.error ("Failed to resolve resource directory: " ++ e), [])
    | Except.ok rdir =>
      match env.app_data_dir with
      | Except.error e => (Except.error ("Failed to resolve app data directory: " ++ e), [])
      | Except.ok _adir =>
        match setup_logging env.log with
        | Except.error e => (Except.error e, [StartEvent.logOpen])
        | Except.ok _files =>
          if (check_port_available env.probe).available then
            match env.spawn with
            | Except.error e =>
              (Except.error ("Failed to spawn server binary " ++ rdir ++
                  "/binaries/voxtube-server-" ++ sfx ++ ": " ++ e),
               [StartEvent.logOpen, StartEvent.portCheck, StartEvent.spawnChild])
            | Except.ok child =>
              match (wait_for_server 4000 env.reqs).result with
              | Except.error msg =>
                (Except.error msg,
                 [StartEvent.logOpen, StartEvent.portCheck, StartEvent.spawnChild,
                  StartEvent.healthWait, StartEvent.killChild, StartEvent.waitChild])
              | Except.ok _ =>
                (Except.ok child,
                 [StartEvent.logOpen, StartEvent.portCheck, StartEvent.spawnChild,
                  StartEvent.healthWait])
          else
            (Except.error portInUseMsg, [StartEvent.logOpen, StartEvent.portCheck])

/-- Result of one `child.try_wait()` call in `graceful_shutdown_impl`:
`Ok(Some(_))` (exited), `Ok(None)` (still running) or `Err(_)`. -/
inductive TryWait where
  | exited
  | running
  | errored
deriving DecidableEq, Repr

/-- The grace period of the Unix shutdown path (2 s). -/
def GRACE_MS : Nat := 2000

/-- The status poll interval of the Unix shutdown path (100 ms). -/
def SHUTDOWN_POLL_MS : Nat := 100

/-- Observable outcome of a shutdown run: how many times `child.kill()`
was invoked, whether a blocking `child.wait()` followed, whether a status
query observed the child already exited, the time (ms after SIGTERM) at
which the function returned (entered its final branch), and which log
messages were emitted. -/
structure ShutdownResult where
  kills : Nat
  waitedAfterKill : Bool
  exitObserved : Bool
  returnTime : Nat
  escalationLogged : Bool
  statusErrorLogged : Bool
deriving DecidableEq, Repr

/-- The polling loop of the Unix `graceful_shutdown_impl`, entered right
after SIGTERM is sent.  Iteration `i` runs at time
`SHUTDOWN_POLL_MS * i`: `try_wait` is consulted first; `Ok(Some)` returns
with no kill; `Err` logs and escalates to kill + wait; `Ok(None)` kills
after the deadline (`GRACE_MS`) has been reached, else sleeps 100 ms and
retries. -/
def graceful_shutdown_loop (statuses : Nat → TryWait) (i : Nat) : ShutdownResult :=
  match statuses i with
  | TryWait.exited => ⟨0, false, true, SHUTDOWN_POLL_MS * i, false, false⟩
  | TryWait.errored => ⟨1, true, false, SHUTDOWN_POLL_MS * i, false, true⟩
  | TryWait.running =>
    if _h : GRACE_MS ≤ SHUTDOWN_POLL_MS * i then
      ⟨1, true, false, SHUTDOWN_POLL_MS * i, true, false⟩
    else
      graceful_shutdown_loop statuses (i + 1)
termination_by GRACE_MS / SHUTDOWN_POLL_MS + 1 - i
decreasing_by simp [GRACE_MS, SHUTDOWN_POLL_MS] at *; omega

/-- The `cfg(unix)` `graceful_shutdown_impl`: send SIGTERM, then poll. -/
def graceful_shutdown_impl (statuses : Nat → TryWait) : ShutdownResult :=
  graceful_shutdown_loop statuses 0

/-- `shutdown_server` from lib.rs, which delegates to
`graceful_shutdown_impl`.  Its Rust return type is `()`: there is no
error channel, so nothing can be propagated to the caller. -/
def shutdown_server (statuses : Nat → TryWait) : ShutdownResult :=
  graceful_shutdown_impl statuses

/-- The `cfg(not(unix))` `graceful_shutdown_impl`: unconditional
`child.kill()` followed by `child.wait()`. -/
def graceful_shutdown_impl_nonunix : ShutdownResult :=
  ⟨1, true, false, 0, false, false⟩

/-- A handle stored in the managed `ServerState` of main.rs; its `statuses`
field is what successive `try_wait` queries on the underlying process
report. -/
structure Handle where
  statuses : Nat → TryWait

/-- `ServerState` from main.rs: the mutex-protected slot holding the
optional child handle. -/
structure ServerState where
  child : Option Handle

/-- The `CloseRequested` window-event handler in main.rs: lock the state;
`if let Some(ref mut child) = guard.child { shutdown_server(child); }`;
the slot itself is not reassigned.  Returns the state after the handler
and the shutdown result, if a shutdown ran. -/
def on_close_requested (st : ServerState) : ServerState × Option ShutdownResult :=
  match st.child with
  | some c => (st, some (shutdown_server c.statuses))
  | none => (st, none)

/-- The `RunEvent::Exit` handler in main.rs: identical shape to the close
handler — shutdown the child if the slot is occupied, leave the slot
unchanged. -/
def on_run_exit (st : ServerState) : ServerState × Option ShutdownResult :=
  match st.child with
  | some c => (st, some (shutdown_server c.statuses))
  | none => (st, none)

/-- A log environment in which every filesystem call succeeds. -/
def okLog : LogEnv := ⟨Except.ok (), Except.ok 0, Except.ok 1⟩

/-- A concrete environment in which everything up to the spawn succeeds
and every health poll fails instantly. -/
def envHealthFail : AppEnv :=
  ⟨"aarch64", Except.ok "res", Except.ok "data", okLog, ConnectOutcome.refused,
   Except.ok ⟨7⟩, fun _ => ⟨0, ReqOutcome.failed⟩⟩

/-- A concrete environment in which everything succeeds and the first
health poll returns HTTP 200 instantly. -/
def envHealthy : AppEnv :=
  ⟨"aarch64", Except.ok "res", Except.ok "data", okLog, ConnectOutcome.refused,
   Except.ok ⟨7⟩, fun _ => ⟨0, ReqOutcome.response 200⟩⟩

/-- A handle whose underlying process has already exited: every status
query reports the exit. -/
def exitedHandle : Handle := ⟨fun _ => TryWait.exited⟩

/-- Any error return of the health poll loop is the deadline error: its
message is the timeout message and the elapsed time strictly exceeds the
deadline.  Individual poll failures never produce a return by
themselves. -/
theorem wait_loop_err (timeout : Nat) (reqs : Nat → PollStep) :
    ∀ fuel n elapsed, timeout + 1 - elapsed ≤ fuel →
      ∀ msg, (wait_loop timeout reqs n elapsed).result = Except.error msg →
        msg = timeoutMsg timeout ∧
          timeout < (wait_loop timeout reqs n elapsed).elapsed := by
  intro fuel
  induction fuel with
  | zero =>
    intro n elapsed hle msg hmsg
    have hgt : timeout < elapsed := by omega
    rw [wait_loop, dif_pos hgt] at hmsg ⊢
    simp at hmsg
    exact ⟨hmsg.symm, hgt⟩
  | succ fuel ih =>
    intro n elapsed hle msg hmsg
    by_cases hgt : timeout < elapsed
    · rw [wait_loop, dif_pos hgt] at hmsg ⊢
      simp at hmsg
      exact ⟨hmsg.symm, hgt⟩
    · rw [wait_loop, dif_neg hgt] at hmsg ⊢
      by_cases hpoll : pollOk (reqs n) = true
      · rw [if_pos hpoll] at hmsg
        simp at hmsg
      · rw [if_neg hpoll] at hmsg ⊢
        have hk : POLL_INTERVAL = 200 := rfl
        exact ih (n + 1) (elapsed + (reqs n).duration + POLL_INTERVAL)
          (by omega) msg hmsg

/-- If every poll fails and each request duration is at most `D`, the loop
returns the timeout error, strictly after the deadline, and (when entered
with elapsed time within the deadline) no later than
deadline + `D` + one poll interval. -/
theorem wait_loop_fail (timeout : Nat) (reqs : Nat → PollStep) (D : Nat)
    (hfail : ∀ n, pollOk (reqs n) = false)
    (hdur : ∀ n, (reqs n).duration ≤ D) :
    ∀ fuel n elapsed, timeout + 1 - elapsed ≤ fuel →
      (wait_loop timeout reqs n elapsed).result =
          Except.error (timeoutMsg timeout) ∧
      timeout < (wait_loop timeout reqs n elapsed).elapsed ∧
      (elapsed ≤ timeout →
        (wait_loop timeout reqs n elapsed).elapsed ≤
          timeout + D + POLL_INTERVAL) ∧
      (timeout < elapsed →
        (wait_loop timeout reqs n elapsed).elapsed = elapsed) := by
  intro fuel
  induction fuel with
  | zero =>
    intro n elapsed hle
    have hgt : timeout < elapsed := by omega
    rw [wait_loop, dif_pos hgt]
    exact ⟨rfl, hgt, fun h => absurd h (by omega), fun _ => rfl⟩
  | succ fuel ih =>
    intro n elapsed hle
    by_cases hgt : timeout < elapsed
    · rw [wait_loop, dif_pos hgt]
      exact ⟨rfl, hgt, fun h => absurd h (by omega), fun _ => rfl⟩
    · rw [wait_loop, dif_neg hgt]
      have hp : ¬ (pollOk (reqs n) = true) := by simp [hfail n]
      rw [if_neg hp]
      have hk : POLL_INTERVAL = 200 := rfl
      have hrec := ih (n + 1) (elapsed + (reqs n).duration + POLL_INTERVAL)
        (by omega)
      refine ⟨hrec.1, hrec.2.1, ?_, ?_⟩
      · intro hle2
        by_cases h2 : elapsed + (reqs n).duration + POLL_INTERVAL ≤ timeout
        · exact hrec.2.2.1 h2
        · have h3 := hrec.2.2.2 (by omega)
          have hd := hdur n
          omega
      · intro hgt2
        exact absurd hgt2 hgt

/-- The accumulated elapsed time is monotone in the iteration index. -/
theorem elapsedAt_mono (reqs : Nat → PollStep) :
    ∀ m n, n ≤ m → elapsedAt reqs n ≤ elapsedAt reqs m := by
  intro m
  induction m with
  | zero =>
    intro n h
    have : n = 0 := Nat.le_zero.mp h
    subst this
    exact Nat.le_refl _
  | succ m ih =>
    intro n h
    rcases Nat.eq_or_lt_of_le h with he | hlt
    · subst he
      exact Nat.le_refl _
    · have h2 := ih n (Nat.lt_succ_iff.mp hlt)
      have h3 : elapsedAt reqs (m + 1) =
          elapsedAt reqs m + (reqs m).duration + POLL_INTERVAL := rfl
      omega

/-- If the first success-class response occurs at poll `m` and the loop's
deadline has not been exceeded when that request is issued, the loop
returns success exactly when that request completes: at elapsed time
`elapsedAt reqs m + (reqs m).duration`, with no further sleeping. -/
theorem wait_loop_success (timeout : Nat) (reqs : Nat → PollStep) (m : Nat)
    (hbefore : ∀ k, k < m → pollOk (reqs k) = false)
    (hm : pollOk (reqs m) = true)
    (hre : elapsedAt reqs m ≤ timeout) :
    ∀ fuel n, m - n ≤ fuel → n ≤ m →
      wait_loop timeout reqs n (elapsedAt reqs n) =
        ⟨Except.ok (), elapsedAt reqs m + (reqs m).duration⟩ := by
  intro fuel
  induction fuel with
  | zero =>
    intro n h1 h2
    have hnm : n = m := by omega
    subst hnm
    have hng : ¬ timeout < elapsedAt reqs n := by omega
    rw [wait_loop, dif_neg hng, if_pos hm]
  | succ fuel ih =>
    intro n h1 h2
    by_cases hnm : n = m
    · subst hnm
      have hng : ¬ timeout < elapsedAt reqs n := by omega
      rw [wait_loop, dif_neg hng, if_pos hm]
    · have hlt : n < m := by omega
      have hmono := elapsedAt_mono reqs m n (by omega)
      have hng : ¬ timeout < elapsedAt reqs n := by omega
      have hp : ¬ (pollOk (reqs n) = true) := by simp [hbefore n hlt]
      rw [wait_loop, dif_neg hng, if_neg hp]
      have hstep : elapsedAt reqs n + (reqs n).duration + POLL_INTERVAL =
          elapsedAt reqs (n + 1) := rfl
      rw [hstep]
      exact ih (n + 1) (by omega) (by omega)

/-- If every status query up to poll `m` reports the child still running,
poll `m` lies within the grace period, and poll `m` observes the exit,
the shutdown loop returns at that poll with no kill, no wait-after-kill
and nothing logged. -/
theorem shutdown_loop_exits (statuses : Nat → TryWait) (m : Nat)
    (hm : SHUTDOWN_POLL_MS * m ≤ GRACE_MS)
    (hex : statuses m = TryWait.exited) :
    ∀ fuel i, m - i ≤ fuel → i ≤ m →
      (∀ j, i ≤ j → j < m → statuses j = TryWait.running) →
      graceful_shutdown_loop statuses i =
        ⟨0, false, true, SHUTDOWN_POLL_MS * m, false, false⟩ := by
  intro fuel
  induction fuel with
  | zero =>
    intro i h1 h2 hrun
    have him : i = m := by omega
    subst him
    rw [graceful_shutdown_loop]
    simp [hex]
  | succ fuel ih =>
    intro i h1 h2 hrun
    by_cases him : i = m
    · subst him
      rw [graceful_shutdown_loop]
      simp [hex]
    · have hlt : i < m := by omega
      have hri : statuses i = TryWait.running := hrun i (Nat.le_refl i) hlt
      have hng : ¬ GRACE_MS ≤ SHUTDOWN_POLL_MS * i := by
        simp only [GRACE_MS, SHUTDOWN_POLL_MS] at hm ⊢
        omega
      rw [graceful_shutdown_loop]
      simp only [hri]
      rw [dif_neg hng]
      exact ih (i + 1) (by omega) (by omega)
        (fun j hj1 hj2 => hrun j (by omega) hj2)

/-- If every status query up to poll `m` reports the child still running,
poll `m` lies within the grace period, and poll `m` fails with an OS
error, the shutdown loop escalates at that poll: one kill, a blocking
wait, and the status error logged. -/
theorem shutdown_loop_errors (statuses : Nat → TryWait) (m : Nat)
    (hm : SHUTDOWN_POLL_MS * m ≤ GRACE_MS)
    (he : statuses m = TryWait.errored) :
    ∀ fuel i, m - i ≤ fuel → i ≤ m →
      (∀ j, i ≤ j → j < m → statuses j = TryWait.running) →
      graceful_shutdown_loop statuses i =
        ⟨1, true, false, SHUTDOWN_POLL_MS * m, false, true⟩ := by
  intro fuel
  induction fuel with
  | zero =>
    intro i h1 h2 hrun
    have him : i = m := by omega
    subst him
    rw [graceful_shutdown_loop]
    simp [he]
  | succ fuel ih =>
    intro i h1 h2 hrun
    by_cases him : i = m
    · subst him
      rw [graceful_shutdown_loop]
      simp [he]
    · have hlt : i < m := by omega
      have hri : statuses i = TryWait.running := hrun i (Nat.le_refl i) hlt
      have hng : ¬ GRACE_MS ≤ SHUTDOWN_POLL_MS * i := by
        simp only [GRACE_MS, SHUTDOWN_POLL_MS] at hm ⊢
        omega
      rw [graceful_shutdown_loop]
      simp only [hri]
      rw [dif_neg hng]
      exact ih (i + 1) (by omega) (by omega)
        (fun j hj1 hj2 => hrun j (by omega) hj2)

/-- If every status query within the grace period reports the child still
running, the shutdown loop escalates exactly when the grace period ends:
one kill, a blocking wait, the escalation logged, at time equal to the
grace period. -/
theorem shutdown_loop_all_running (statuses : Nat → TryWait)
    (hall : ∀ j, SHUTDOWN_POLL_MS * j ≤ GRACE_MS →
      statuses j = TryWait.running) :
    ∀ fuel i, GRACE_MS / SHUTDOWN_POLL_MS + 1 - i ≤ fuel →
      SHUTDOWN_POLL_MS * i ≤ GRACE_MS →
      graceful_shutdown_loop statuses i =
        ⟨1, true, false, GRACE_MS, true, false⟩ := by
  intro fuel
  induction fuel with
  | zero =>
    intro i h1 h2
    exfalso
    simp only [GRACE_MS, SHUTDOWN_POLL_MS] at h1 h2
    omega
  | succ fuel ih =>
    intro i h1 h2
    have hri : statuses i = TryWait.running := hall i h2
    rw [graceful_shutdown_loop]
    simp only [hri]
    by_cases hd : GRACE_MS ≤ SHUTDOWN_POLL_MS * i
    · rw [dif_pos hd]
      have hexact : SHUTDOWN_POLL_MS * i = GRACE_MS := by
        simp only [GRACE_MS, SHUTDOWN_POLL_MS] at h2 hd ⊢
        omega
      rw [hexact]
    · rw [dif_neg hd]
      apply ih (i + 1)
      · simp only [GRACE_MS, SHUTDOWN_POLL_MS] at h1 hd ⊢
        omega
      · simp only [GRACE_MS, SHUTDOWN_POLL_MS] at h2 hd ⊢
        omega

/-- Every return path of the shutdown loop either observed the child's
exit or issued exactly one kill followed by a blocking wait. -/
theorem shutdown_loop_confirms (statuses : Nat → TryWait) :
    ∀ fuel i, GRACE_MS / SHUTDOWN_POLL_MS + 1 - i ≤ fuel →
      (graceful_shutdown_loop statuses i).exitObserved = true ∨
      ((graceful_shutdown_loop statuses i).kills = 1 ∧
        (graceful_shutdown_loop statuses i).waitedAfterKill = true) := by
  intro fuel
  induction fuel with
  | zero =>
    intro i h1
    have hd : GRACE_MS ≤ SHUTDOWN_POLL_MS * i := by
      simp only [GRACE_MS, SHUTDOWN_POLL_MS] at h1 ⊢
      omega
    rw [graceful_shutdown_loop]
    cases hst : statuses i with
    | exited => exact Or.inl rfl
    | errored => exact Or.inr ⟨rfl, rfl⟩
    | running =>
      rw [dif_pos hd]
      exact Or.inr ⟨rfl, rfl⟩
  | succ fuel ih =>
    intro i h1
    rw [graceful_shutdown_loop]
    cases hst : statuses i with
    | exited => exact Or.inl rfl
    | errored => exact Or.inr ⟨rfl, rfl⟩
    | running =>
      by_cases hd : GRACE_MS ≤ SHUTDOWN_POLL_MS * i
      · rw [dif_pos hd]
        exact Or.inr ⟨rfl, rfl⟩
      · rw [dif_neg hd]
        apply ih (i + 1)
        simp only [GRACE_MS, SHUTDOWN_POLL_MS] at h1 hd ⊢
        omega

/-- Claim C1, counterexample: a run of wait_for_server with the 4 s
deadline in which every health request fails after 450 ms (within the
500 ms per-request budget) returns the timeout failure only at 4550 ms
elapsed, strictly later than deadline plus one poll interval (4200 ms).
The bound stated by the claim therefore fails. -/
theorem C1_counterexample :
    (∀ n : Nat, pollOk ((fun (_ : Nat) => PollStep.mk 450 ReqOutcome.failed) n) = false) ∧
    (∀ n : Nat, ((fun (_ : Nat) => PollStep.mk 450 ReqOutcome.failed) n).duration ≤
      REQUEST_TIMEOUT) ∧
    (wait_for_server 4000 (fun _ => PollStep.mk 450 ReqOutcome.failed)).result =
      Except.error (timeoutMsg 4000) ∧
    4000 + POLL_INTERVAL <
      (wait_for_server 4000 (fun _ => PollStep.mk 450 ReqOutcome.failed)).elapsed := by
  refine ⟨fun n => rfl, fun n => by norm_num [REQUEST_TIMEOUT], ?_⟩
  have h : wait_for_server 4000 (fun _ => PollStep.mk 450 ReqOutcome.failed) =
      ⟨Except.error (timeoutMsg 4000), 4550⟩ := by
    show wait_loop 4000 (fun _ => PollStep.mk 450 ReqOutcome.failed) 0 0 = _
    rw [wait_loop]; norm_num [pollOk, POLL_INTERVAL]
    rw [wait_loop]; norm_num [pollOk, POLL_INTERVAL]
    rw [wait_loop]; norm_num [pollOk, POLL_INTERVAL]
    rw [wait_loop]; norm_num [pollOk, POLL_INTERVAL]
    rw [wait_loop]; norm_num [pollOk, POLL_INTERVAL]
    rw [wait_loop]; norm_num [pollOk, POLL_INTERVAL]
    rw [wait_loop]; norm_num [pollOk, POLL_INTERVAL]
    rw [wait_loop]; norm_num [pollOk, POLL_INTERVAL]
  rw [h]
  exact ⟨rfl, by norm_num [POLL_INTERVAL]⟩

/-- Claim C1, amended: whenever no health request ever yields a
success-class response and every request stays within the 500 ms
per-request timeout, wait_for_server returns the timeout failure whose
message names the configured deadline, at an elapsed time strictly after
the deadline and no later than the deadline plus one per-request timeout
plus one poll interval. -/
theorem wait_for_server_timeout_bounds (timeout : Nat)
    (reqs : Nat → PollStep)
    (hfail : ∀ n, pollOk (reqs n) = false)
    (hdur : ∀ n, (reqs n).duration ≤ REQUEST_TIMEOUT) :
    (wait_for_server timeout reqs).result =
      Except.error (timeoutMsg timeout) ∧
    timeout < (wait_for_server timeout reqs).elapsed ∧
    (wait_for_server timeout reqs).elapsed ≤
      timeout + REQUEST_TIMEOUT + POLL_INTERVAL := by
  have h := wait_loop_fail timeout reqs REQUEST_TIMEOUT hfail hdur
    (timeout + 1) 0 0 (by omega)
  exact ⟨by simpa [wait_for_server] using h.1,
    by simpa [wait_for_server] using h.2.1,
    by simpa [wait_for_server] using h.2.2.1 (Nat.zero_le timeout)⟩

/-- Witness for the amended claim C1, at the 4 s deadline with every
request failing instantly. -/
theorem C1_witness :
    (wait_for_server 4000 (fun _ => PollStep.mk 0 ReqOutcome.failed)).result =
      Except.error (timeoutMsg 4000) ∧
    4000 < (wait_for_server 4000 (fun _ => PollStep.mk 0 ReqOutcome.failed)).elapsed ∧
    (wait_for_server 4000 (fun _ => PollStep.mk 0 ReqOutcome.failed)).elapsed ≤
      4000 + REQUEST_TIMEOUT + POLL_INTERVAL :=
  wait_for_server_timeout_bounds 4000 (fun _ => PollStep.mk 0 ReqOutcome.failed)
    (fun _ => rfl) (fun _ => Nat.zero_le _)

/-- Claim C2: wait_for_server returns success exactly when the first
success-class (2xx) response completes — with no further poll-interval
sleep — and a failure return is only ever the deadline error: non-success
responses, connection errors and per-request timeouts never terminate the
wait by themselves. -/
theorem wait_for_server_success_and_retry :
    (∀ (timeout : Nat) (reqs : Nat → PollStep) (m : Nat),
        (∀ k, k < m → pollOk (reqs k) = false) →
        pollOk (reqs m) = true →
        elapsedAt reqs m ≤ timeout →
        wait_for_server timeout reqs =
          ⟨Except.ok (), elapsedAt reqs m + (reqs m).duration⟩) ∧
    (∀ (timeout : Nat) (reqs : Nat → PollStep) (msg : String),
        (wait_for_server timeout reqs).result = Except.error msg →
        msg = timeoutMsg timeout ∧
          timeout < (wait_for_server timeout reqs).elapsed) := by
  constructor
  · intro timeout reqs m hb hm hre
    have h := wait_loop_success timeout reqs m hb hm hre m 0 (by omega)
      (Nat.zero_le m)
    simpa [wait_for_server, elapsedAt] using h
  · intro timeout reqs msg h
    have h2 := wait_loop_err timeout reqs (timeout + 1) 0 0 (by omega) msg
      (by simpa [wait_for_server] using h)
    simpa [wait_for_server] using h2

/-- Witness for claim C2: an endpoint answering HTTP 200 instantly on the
first request makes wait_for_server succeed at elapsed time 0, with no
poll interval waited. -/
theorem C2_witness :
    wait_for_server 4000 (fun _ => PollStep.mk 0 (ReqOutcome.response 200)) =
      ⟨Except.ok (), 0⟩ ∧
    (wait_for_server 4000
        (fun _ => PollStep.mk 0 (ReqOutcome.response 200))).elapsed <
      POLL_INTERVAL := by
  have h := wait_for_server_success_and_retry.1 4000
    (fun _ => PollStep.mk 0 (ReqOutcome.response 200)) 0
    (fun k hk => absurd hk (Nat.not_lt_zero k)) (by decide)
    (by simp [elapsedAt])
  have h2 : wait_for_server 4000
      (fun _ => PollStep.mk 0 (ReqOutcome.response 200)) = ⟨Except.ok (), 0⟩ := by
    simpa [elapsedAt] using h
  exact ⟨h2, by rw [h2]; norm_num [POLL_INTERVAL]⟩

/-- Claim C3: in any start_server run in which the spawn succeeds but the
health wait fails, the function kills and then waits the just-spawned
child (the trace ends with killChild, waitChild) and returns the
health-check error, not a success carrying the handle. -/
theorem start_server_kills_on_health_failure
    (env : AppEnv) (sfx rdir adir : String) (files : Nat × Nat) (c : Child)
    (msg : String)
    (ha : arch_suffix env.arch = Except.ok sfx)
    (hr : env.resource_dir = Except.ok rdir)
    (hd : env.app_data_dir = Except.ok adir)
    (hl : setup_logging env.log = Except.ok files)
    (hp : (check_port_available env.probe).available = true)
    (hs : env.spawn = Except.ok c)
    (hw : (wait_for_server 4000 env.reqs).result = Except.error msg) :
    start_server env =
      (Except.error msg,
       [StartEvent.logOpen, StartEvent.portCheck, StartEvent.spawnChild,
        StartEvent.healthWait, StartEvent.killChild, StartEvent.waitChild]) := by
  unfold start_server
  simp [ha, hr, hd, hl, hp, hs, hw]

/-- Witness for claim C3: a concrete environment whose health polls all
fail makes start_server kill and wait the child and return the timeout
message. -/
theorem C3_witness :
    start_server envHealthFail =
      (Except.error (timeoutMsg 4000),
       [StartEvent.logOpen, StartEvent.portCheck, StartEvent.spawnChild,
        StartEvent.healthWait, StartEvent.killChild, StartEvent.waitChild]) := by
  have hw : (wait_for_server 4000 envHealthFail.reqs).result =
      Except.error (timeoutMsg 4000) := by
    have h := wait_loop_fail 4000 envHealthFail.reqs REQUEST_TIMEOUT
      (fun _ => rfl) (fun _ => Nat.zero_le _) 4001 0 0 (by omega)
    exact h.1
  exact start_server_kills_on_health_failure envHealthFail "aarch64" "res"
    "data" (0, 1) ⟨7⟩ (timeoutMsg 4000) rfl rfl rfl rfl rfl rfl hw

/-- Claim C4: with cooperative signaling and no status-query errors, a
forced kill happens if and only if no status poll within the grace period
observes the exit; in that case there is exactly one kill, issued when
the grace period ends; a child observed exited within the grace period is
never killed. -/
theorem shutdown_grace_iff (statuses : Nat → TryWait)
    (herr : ∀ i, statuses i ≠ TryWait.errored) :
    (1 ≤ (shutdown_server statuses).kills ↔
      ∀ i, SHUTDOWN_POLL_MS * i ≤ GRACE_MS → statuses i ≠ TryWait.exited) ∧
    ((∀ i, SHUTDOWN_POLL_MS * i ≤ GRACE_MS → statuses i ≠ TryWait.exited) →
      shutdown_server statuses = ⟨1, true, false, GRACE_MS, true, false⟩) := by
  have hall : (∀ i, SHUTDOWN_POLL_MS * i ≤ GRACE_MS →
      statuses i ≠ TryWait.exited) →
      shutdown_server statuses = ⟨1, true, false, GRACE_MS, true, false⟩ := by
    intro hne
    have hrun : ∀ j, SHUTDOWN_POLL_MS * j ≤ GRACE_MS →
        statuses j = TryWait.running := by
      intro j hj
      cases hst : statuses j with
      | exited => exact absurd hst (hne j hj)
      | running => rfl
      | errored => exact absurd hst (herr j)
    have h := shutdown_loop_all_running statuses hrun
      (GRACE_MS / SHUTDOWN_POLL_MS + 1) 0
      (by simp only [GRACE_MS, SHUTDOWN_POLL_MS]; omega)
      (by simp [GRACE_MS, SHUTDOWN_POLL_MS])
    simpa [shutdown_server, graceful_shutdown_impl] using h
  refine ⟨⟨?_, fun h => by rw [hall h]⟩, hall⟩
  intro hk
  by_contra hcon
  push_neg at hcon
  obtain ⟨i0, hi0, hex0⟩ := hcon
  have hex : ∃ i, SHUTDOWN_POLL_MS * i ≤ GRACE_MS ∧
      statuses i = TryWait.exited := ⟨i0, hi0, hex0⟩
  have hm1 := (Nat.find_spec hex).1
  have hm2 := (Nat.find_spec hex).2
  have hbefore : ∀ j, j < Nat.find hex → statuses j = TryWait.running := by
    intro j hj
    have hnot := Nat.find_min hex hj
    cases hst : statuses j with
    | running => rfl
    | errored => exact absurd hst (herr j)
    | exited =>
      exfalso
      apply hnot
      refine ⟨?_, hst⟩
      simp only [GRACE_MS, SHUTDOWN_POLL_MS] at hm1 ⊢
      omega
  have h := shutdown_loop_exits statuses (Nat.find hex) hm1 hm2
    (Nat.find hex) 0 (by omega) (Nat.zero_le _)
    (fun j _ hj => hbefore j hj)
  have hz : shutdown_server statuses =
      ⟨0, false, true, SHUTDOWN_POLL_MS * Nat.find hex, false, false⟩ := by
    simpa [shutdown_server, graceful_shutdown_impl] using h
  rw [hz] at hk
  simp at hk

/-- Witness for claim C4: a child already exited at the first poll is
never killed, and a child that ignores the signal gets exactly one kill
when the grace period ends. -/
theorem C4_witness :
    (shutdown_server (fun _ => TryWait.exited)).kills = 0 ∧
    shutdown_server (fun _ => TryWait.running) =
      ⟨1, true, false, GRACE_MS, true, false⟩ := by
  constructor
  · have h := (shutdown_grace_iff (fun _ => TryWait.exited)
      (fun i => by simp)).1
    by_contra hne
    have hk : 1 ≤ (shutdown_server (fun _ => TryWait.exited)).kills := by
      omega
    have h2 := h.mp hk 0 (by simp [SHUTDOWN_POLL_MS, GRACE_MS])
    simp at h2
  · exact (shutdown_grace_iff (fun _ => TryWait.running)
      (fun i => by simp)).2 (fun i _ => by simp)

/-- Claim C5, counterexample: a concrete fully-successful start_server run
produces the event trace logOpen, portCheck, spawnChild, healthWait — the
log sink is opened strictly before the port probe runs, contrary to the
claimed PortProbe-before-LogSink order. -/
theorem C5_counterexample :
    (start_server envHealthy).2 =
      [StartEvent.logOpen, StartEvent.portCheck, StartEvent.spawnChild,
       StartEvent.healthWait] ∧
    List.indexOf StartEvent.logOpen (start_server envHealthy).2 <
      List.indexOf StartEvent.portCheck (start_server envHealthy).2 := by
  have hw : (wait_for_server 4000 envHealthy.reqs).result = Except.ok () := by
    show (wait_loop 4000 envHealthy.reqs 0 0).result = _
    rw [wait_loop]
    norm_num [pollOk, is_success, envHealthy]
  have h : start_server envHealthy =
      (Except.ok ⟨7⟩,
       [StartEvent.logOpen, StartEvent.portCheck, StartEvent.spawnChild,
        StartEvent.healthWait]) := by
    unfold start_server
    simp only [envHealthy] at hw
    simp [envHealthy, okLog, arch_suffix, setup_logging,
      check_port_available, hw]
  rw [h]
  exact ⟨rfl, by decide⟩

/-- Claim C5, amended: in every start_server run that reaches the health
wait, the observable order is: log sink opened, then port probed, then
child spawned, then health wait begun. -/
theorem start_server_event_order
    (env : AppEnv) (sfx rdir adir : String) (files : Nat × Nat) (c : Child)
    (ha : arch_suffix env.arch = Except.ok sfx)
    (hr : env.resource_dir = Except.ok rdir)
    (hd : env.app_data_dir = Except.ok adir)
    (hl : setup_logging env.log = Except.ok files)
    (hp : (check_port_available env.probe).available = true)
    (hs : env.spawn = Except.ok c) :
    List.take 4 (start_server env).2 =
      [StartEvent.logOpen, StartEvent.portCheck, StartEvent.spawnChild,
       StartEvent.healthWait] := by
  unfold start_server
  cases hwr : (wait_for_server 4000 env.reqs).result with
  | error e => simp [ha, hr, hd, hl, hp, hs, hwr]
  | ok u => simp [ha, hr, hd, hl, hp, hs, hwr]

/-- Witness for the amended claim C5, on a concrete healthy run. -/
theorem C5_witness :
    List.take 4 (start_server envHealthy).2 =
      [StartEvent.logOpen, StartEvent.portCheck, StartEvent.spawnChild,
       StartEvent.healthWait] :=
  start_server_event_order envHealthy "aarch64" "res" "data" (0, 1) ⟨7⟩
    rfl rfl rfl rfl rfl rfl

/-- Claim C6, counterexample: after the CloseRequested handler runs
shutdown on an already-exited child (exit confirmed: exitObserved is
true), the shared slot still holds that very handle — it is not
invalidated. -/
theorem C6_counterexample :
    ((on_close_requested ⟨some exitedHandle⟩).2.map
        ShutdownResult.exitObserved = some true) ∧
    (on_close_requested ⟨some exitedHandle⟩).1.child = some exitedHandle := by
  refine ⟨?_, rfl⟩
  have h : shutdown_server exitedHandle.statuses =
      ⟨0, false, true, 0, false, false⟩ := by
    show graceful_shutdown_loop exitedHandle.statuses 0 = _
    rw [graceful_shutdown_loop]
    simp [exitedHandle, SHUTDOWN_POLL_MS]
  simp [on_close_requested, h]

/-- Claim C6, amended: neither the CloseRequested handler nor the Exit
handler ever clears the shared slot; after the close handler's shutdown
returns, the slot still holds the same handle, and the exit handler then
invokes shutdown again on that same handle — safe reentry rests on
shutdown idempotence for exited children, not on handle invalidation. -/
theorem close_and_exit_keep_handle (st : ServerState) (h : Handle)
    (hc : st.child = some h) :
    (on_close_requested st).1.child = some h ∧
    (on_close_requested st).2 = some (shutdown_server h.statuses) ∧
    (on_run_exit (on_close_requested st).1).1.child = some h ∧
    (on_run_exit (on_close_requested st).1).2 =
      some (shutdown_server h.statuses) := by
  simp [on_close_requested, on_run_exit, hc]

/-- Witness for the amended claim C6, on a concrete occupied slot. -/
theorem C6_witness :
    (on_close_requested ⟨some exitedHandle⟩).1.child = some exitedHandle ∧
    (on_close_requested ⟨some exitedHandle⟩).2 =
      some (shutdown_server exitedHandle.statuses) ∧
    (on_run_exit (on_close_requested ⟨some exitedHandle⟩).1).1.child =
      some exitedHandle ∧
    (on_run_exit (on_close_requested ⟨some exitedHandle⟩).1).2 =
      some (shutdown_server exitedHandle.statuses) :=
  close_and_exit_keep_handle ⟨some exitedHandle⟩ exitedHandle rfl

/-- Claim C7: the port probe reports the port available exactly when the
connection attempt is refused; a successful connection and every other
connection error report not-available, the latter with a logged
warning. -/
theorem check_port_available_spec :
    ∀ o : ConnectOutcome,
      ((check_port_available o).available = true ↔
        o = ConnectOutcome.refused) ∧
      ((check_port_available o).warned = true ↔
        o ≠ ConnectOutcome.refused ∧ o ≠ ConnectOutcome.connected) := by
  intro o
  cases o <;> simp [check_port_available]

/-- Claim C8: terminating an already-exited child returns promptly (at
the very first status poll), with no kill, nothing logged, and no error —
the Rust function returns unit, so there is no error channel at all — and
a second call on the same already-exited handle behaves identically. -/
theorem shutdown_idempotent_on_exited (s1 s2 : Nat → TryWait)
    (h1 : s1 0 = TryWait.exited) (h2 : s2 0 = TryWait.exited) :
    shutdown_server s1 = ⟨0, false, true, 0, false, false⟩ ∧
    shutdown_server s2 = shutdown_server s1 := by
  have key : ∀ s : Nat → TryWait, s 0 = TryWait.exited →
      shutdown_server s = ⟨0, false, true, 0, false, false⟩ := by
    intro s hs
    show graceful_shutdown_loop s 0 = _
    rw [graceful_shutdown_loop]
    simp [hs, SHUTDOWN_POLL_MS]
  exact ⟨key s1 h1, (key s2 h2).trans (key s1 h1).symm⟩

/-- Witness for claim C8, on a handle whose process has exited. -/
theorem C8_witness :
    shutdown_server (fun _ => TryWait.exited) =
      ⟨0, false, true, 0, false, false⟩ :=
  (shutdown_idempotent_on_exited (fun _ => TryWait.exited)
    (fun _ => TryWait.exited) rfl rfl).1

/-- Claim C9: if the status query fails with an OS-level error at some
poll the loop reaches, the controller escalates to a kill followed by a
blocking wait; the query error is only logged (statusErrorLogged), and
nothing is propagated to the caller — the function's return carries no
error value. -/
theorem shutdown_escalates_on_status_error (statuses : Nat → TryWait)
    (m : Nat)
    (hm : SHUTDOWN_POLL_MS * m ≤ GRACE_MS)
    (hrun : ∀ j, j < m → statuses j = TryWait.running)
    (he : statuses m = TryWait.errored) :
    shutdown_server statuses =
      ⟨1, true, false, SHUTDOWN_POLL_MS * m, false, true⟩ := by
  have h := shutdown_loop_errors statuses m hm he m 0 (by omega)
    (Nat.zero_le m) (fun j _ hj => hrun j hj)
  simpa [shutdown_server, graceful_shutdown_impl] using h

/-- Witness for claim C9: a status query that errors at the very first
poll leads to an immediate kill, wait, and a logged (not propagated)
error. -/
theorem C9_witness :
    shutdown_server (fun _ => TryWait.errored) =
      ⟨1, true, false, 0, false, true⟩ := by
  have h := shutdown_escalates_on_status_error (fun _ => TryWait.errored) 0
    (by simp [SHUTDOWN_POLL_MS, GRACE_MS])
    (fun j hj => absurd hj (Nat.not_lt_zero j)) rfl
  simpa [SHUTDOWN_POLL_MS] using h

/-- Claim C10: on the Unix path, every run of shutdown_server either
observed the child's exit through a status query or issued exactly one
kill followed by a blocking wait; the non-Unix variant unconditionally
kills and waits.  No return path leaves the child neither observed-exited
nor killed-and-waited. -/
theorem shutdown_always_confirms_termination :
    (∀ statuses : Nat → TryWait,
        (shutdown_server statuses).exitObserved = true ∨
        ((shutdown_server statuses).kills = 1 ∧
          (shutdown_server statuses).waitedAfterKill = true)) ∧
    (graceful_shutdown_impl_nonunix.kills = 1 ∧
      graceful_shutdown_impl_nonunix.waitedAfterKill = true) := by
  refine ⟨fun statuses => ?_, rfl, rfl⟩
  have h := shutdown_loop_confirms statuses
    (GRACE_MS / SHUTDOWN_POLL_MS + 1) 0
    (by simp only [GRACE_MS, SHUTDOWN_POLL_MS]; omega)
  simpa [shutdown_server, graceful_shutdown_impl] using h

end Voxtube
